import Mathlib

/-!
Shallow embedding of the MOD Devices CS4245/CS4265 ALSA codec driver
(cs4245.c / cs4265.c, `__MOD_DEVICES__` / `_MOD_DEVICE_DUOX` variants).

We model:
  * the static clock table `clk_map_table` and the linear-scan lookup
    `cs4245_get_clk_index` (the cs4265 copy is line-for-line identical);
  * `cs4245_set_sysclk` as a pure function of the stored `sysclk` field;
  * the GPIO-driven board controls (`set_headphone_volume`,
    `set_gain_stage`, `set_true_bypass`, `set_headphone_cv_mode`,
    `set_exp_pedal_mode`, `set_cv_exp_pedal_mode`,
    `exp_flag_irq_handler`) as state transformers on a `DriverState`
    record mirroring the driver's module-level globals, each returning
    the ordered list of `gpiod_set_value` calls it performs.
-/

namespace Cs4245

/-- Embedding of `struct cs4245_clk_para` from cs4245.c (identical to
`struct cs4265_clk_para` in cs4265.c). -/
structure cs4245_clk_para where
  mclk : Nat
  rate : Nat
  fm_mode : Nat
  mclkdiv : Nat
deriving DecidableEq, Repr

/-- The static `clk_map_table` from cs4245.c (the cs4265.c table holds the
same 45 rows). -/
def clk_map_table : List cs4245_clk_para := [
  -- 32k
  ⟨8192000, 32000, 0, 0⟩,
  ⟨12288000, 32000, 0, 1⟩,
  ⟨16384000, 32000, 0, 2⟩,
  ⟨24576000, 32000, 0, 3⟩,
  ⟨32768000, 32000, 0, 4⟩,
  -- 44.1k
  ⟨11289600, 44100, 0, 0⟩,
  ⟨16934400, 44100, 0, 1⟩,
  ⟨22579200, 44100, 0, 2⟩,
  ⟨33868000, 44100, 0, 3⟩,
  ⟨45158400, 44100, 0, 4⟩,
  -- 48k
  ⟨12288000, 48000, 0, 0⟩,
  ⟨18432000, 48000, 0, 1⟩,
  ⟨24576000, 48000, 0, 2⟩,
  ⟨36864000, 48000, 0, 3⟩,
  ⟨49152000, 48000, 0, 4⟩,
  -- 64k
  ⟨8192000, 64000, 1, 0⟩,
  ⟨12288000, 64000, 1, 1⟩,
  ⟨16934400, 64000, 1, 2⟩,
  ⟨24576000, 64000, 1, 3⟩,
  ⟨32768000, 64000, 1, 4⟩,
  -- 88.2k
  ⟨11289600, 88200, 1, 0⟩,
  ⟨16934400, 88200, 1, 1⟩,
  ⟨22579200, 88200, 1, 2⟩,
  ⟨33868000, 88200, 1, 3⟩,
  ⟨45158400, 88200, 1, 4⟩,
  -- 96k
  ⟨12288000, 96000, 1, 0⟩,
  ⟨18432000, 96000, 1, 1⟩,
  ⟨24576000, 96000, 1, 2⟩,
  ⟨36864000, 96000, 1, 3⟩,
  ⟨49152000, 96000, 1, 4⟩,
  -- 128k
  ⟨8192000, 128000, 2, 0⟩,
  ⟨12288000, 128000, 2, 1⟩,
  ⟨16934400, 128000, 2, 2⟩,
  ⟨24576000, 128000, 2, 3⟩,
  ⟨32768000, 128000, 2, 4⟩,
  -- 176.4k
  ⟨11289600, 176400, 2, 0⟩,
  ⟨16934400, 176400, 2, 1⟩,
  ⟨22579200, 176400, 2, 2⟩,
  ⟨33868000, 176400, 2, 3⟩,
  ⟨49152000, 176400, 2, 4⟩,
  -- 192k
  ⟨12288000, 192000, 2, 0⟩,
  ⟨18432000, 192000, 2, 1⟩,
  ⟨24576000, 192000, 2, 2⟩,
  ⟨36864000, 192000, 2, 3⟩,
  ⟨49152000, 192000, 2, 4⟩]

/-- Errno `EINVAL`, so `-EINVAL = -22` as in the kernel. -/
def EINVAL : Int := 22

/-- The scan loop of `cs4245_get_clk_index`, carrying the current index
`i`; returns the index of the first entry whose `rate` and `mclk` both
match, else `-EINVAL`. -/
def get_clk_index_loop (mclk rate : Nat) : Nat → List cs4245_clk_para → Int
  | _, [] => -EINVAL
  | i, e :: rest =>
    if e.rate = rate ∧ e.mclk = mclk then Int.ofNat i
    else get_clk_index_loop mclk rate (i + 1) rest

/-- Embedding of `cs4245_get_clk_index` from cs4245.c: linear scan of `clk_map_table`
for an exact `(mclk, rate)` match, `-EINVAL` when none matches.
`cs4265_get_clk_index` is line-for-line identical. -/
def cs4245_get_clk_index (mclk rate : Nat) : Int :=
  get_clk_index_loop mclk rate 0 clk_map_table

/-- The clock-programming step of `cs4245_pcm_hw_params`: when the index
lookup succeeds it reads `fm_mode` and `mclkdiv` of the indexed table
row (which `hw_params` then shifts into the codec registers), otherwise
it fails with `-EINVAL`. -/
def cs4245_resolve (mclk rate : Nat) : Option (Nat × Nat) :=
  let index := cs4245_get_clk_index mclk rate
  if 0 ≤ index then
    (clk_map_table.get? index.toNat).map (fun e => (e.fm_mode, e.mclkdiv))
  else
    none

/-- Embedding of `cs4245_set_sysclk` from cs4245.c, as a pure function of the stored
`cs4245->sysclk` value: returns `(return code, new sysclk)`.
`cs4265_set_sysclk` is line-for-line identical. -/
def cs4245_set_sysclk (sysclk : Nat) (clk_id : Int) (freq : Nat) : Int × Nat :=
  if freq = 0 then (0, sysclk)
  else if clk_id ≠ 0 then (-EINVAL, sysclk)
  else if clk_map_table.any (fun e => e.mclk == freq) then (0, freq)
  else (-EINVAL, 0)

/-- The GPIO output lines of `struct _modduox_gpios` (the `_modduo_gpios`
bundle of cs4245.c is the subset without the DUOX-only lines). -/
inductive Pin where
  | headphone_clk
  | headphone_dir
  | gain_stage_left1
  | gain_stage_left2
  | gain_stage_right1
  | gain_stage_right2
  | true_bypass_left
  | true_bypass_right
  | headphone_cv_mode
  | exp_enable1
  | exp_enable2
deriving DecidableEq, Repr

/-- One `gpiod_set_value(pin, value)` call. -/
structure PinWrite where
  pin : Pin
  value : Nat
deriving DecidableEq, Repr

/-- The driver's module-level mutable globals, plus the `initialized`
flag and the `irqFlag1`/`irqFlag2` handles of the GPIO bundle. -/
structure DriverState where
  headphone_volume : Int
  input_left_gain_stage : Int
  input_right_gain_stage : Int
  left_true_bypass : Bool
  right_true_bypass : Bool
  headphone_cv_mode : Bool
  cv_exp_pedal_mode : Bool
  exp_pedal_mode : Bool
  irqFlag1 : Int
  irqFlag2 : Int
  initialized : Bool
deriving DecidableEq, Repr

def CHANNEL_LEFT : Int := 0
def CHANNEL_RIGHT : Int := 1
def GPIO_BYPASS : Nat := 0
def GPIO_PROCESS : Nat := 1

-- tip means enable2, ring enable1
def EXP_PEDAL_SIGNAL_ON_TIP : Bool := false
def EXP_PEDAL_SIGNAL_ON_RING : Bool := true

/-- The `for (i=0; i < steps; i++) { clk 1; clk 0; }` pulse loop shared
by `modduo_init`/`moddevices_init` and `set_headphone_volume`. -/
def pulses : Nat → List PinWrite
  | 0 => []
  | n + 1 => ⟨Pin.headphone_clk, 1⟩ :: ⟨Pin.headphone_clk, 0⟩ :: pulses n

/-- Embedding of `set_headphone_volume` from cs4245.c / cs4265.c (identical bodies):
returns the new global state and the ordered GPIO writes performed. -/
def set_headphone_volume (s : DriverState) (new_volume : Int) :
    DriverState × List PinWrite :=
  let steps := (new_volume - s.headphone_volume).natAbs
  let writes :=
    if s.initialized then
      ⟨Pin.headphone_dir, if new_volume > s.headphone_volume then 1 else 0⟩
        :: pulses steps
    else []
  ({ s with headphone_volume := new_volume }, writes)

/-- The `switch (state)` of `set_gain_stage`: the two static levels
driven onto the channel's pin pair; no case matches outside 0–3. -/
def gain_stage_writes (gpio1 gpio2 : Pin) (state : Int) : List PinWrite :=
  if state = 0 then [⟨gpio1, 1⟩, ⟨gpio2, 1⟩]
  else if state = 1 then [⟨gpio1, 1⟩, ⟨gpio2, 0⟩]
  else if state = 2 then [⟨gpio1, 0⟩, ⟨gpio2, 1⟩]
  else if state = 3 then [⟨gpio1, 0⟩, ⟨gpio2, 0⟩]
  else []

/-- Embedding of `set_gain_stage` from cs4245.c / cs4265.c (identical bodies). -/
def set_gain_stage (s : DriverState) (channel state : Int) :
    DriverState × List PinWrite :=
  if channel = CHANNEL_LEFT then
    let s' := { s with input_left_gain_stage := state }
    if s'.initialized = false then (s', [])
    else (s', gain_stage_writes Pin.gain_stage_left1 Pin.gain_stage_left2 state)
  else if channel = CHANNEL_RIGHT then
    let s' := { s with input_right_gain_stage := state }
    if s'.initialized = false then (s', [])
    else (s', gain_stage_writes Pin.gain_stage_right1 Pin.gain_stage_right2 state)
  else (s, [])

/-- Embedding of `set_true_bypass` from cs4245.c / cs4265.c (identical bodies): the
pin is driven to `GPIO_BYPASS` (0) when `state` is true and
`GPIO_PROCESS` (1) when false, while the mirror records `state`. -/
def set_true_bypass (s : DriverState) (channel : Int) (state : Bool) :
    DriverState × List PinWrite :=
  if channel = CHANNEL_LEFT then
    ({ s with left_true_bypass := state },
     if s.initialized then
       [⟨Pin.true_bypass_left, if state then GPIO_BYPASS else GPIO_PROCESS⟩]
     else [])
  else if channel = CHANNEL_RIGHT then
    ({ s with right_true_bypass := state },
     if s.initialized then
       [⟨Pin.true_bypass_right, if state then GPIO_BYPASS else GPIO_PROCESS⟩]
     else [])
  else (s, [])

/-- Embedding of `set_headphone_cv_mode` from cs4265.c. -/
def set_headphone_cv_mode (s : DriverState) (mode : Int) :
    DriverState × List PinWrite :=
  if mode = 0 ∨ mode = 1 then
    ({ s with headphone_cv_mode := mode != 0 },
     if s.initialized then
       [⟨Pin.headphone_cv_mode, if mode = 0 then 0 else 1⟩]
     else [])
  else (s, [])

/-- Embedding of `set_exp_pedal_mode` from cs4265.c: drives the `exp_enable` pair
only when in expression-pedal mode with initialized pins and
successfully registered sense-line IRQs; always records the requested
side in `exp_pedal_mode`. `mode == (int)EXP_PEDAL_SIGNAL_ON_TIP`
compares against 0 since `EXP_PEDAL_SIGNAL_ON_TIP` is `false`. -/
def set_exp_pedal_mode (s : DriverState) (mode : Int) :
    DriverState × List PinWrite :=
  if mode = 0 ∨ mode = 1 then
    let writes :=
      if s.cv_exp_pedal_mode ∧ s.initialized then
        if s.irqFlag1 ≤ 0 ∨ s.irqFlag2 ≤ 0 then []
        else if mode = 0 then
          [⟨Pin.exp_enable1, 0⟩, ⟨Pin.exp_enable2, 1⟩]
        else
          [⟨Pin.exp_enable2, 0⟩, ⟨Pin.exp_enable1, 1⟩]
      else []
    ({ s with exp_pedal_mode := mode != 0 }, writes)
  else (s, [])

/-- Embedding of `set_cv_exp_pedal_mode` from cs4265.c: mode 0 forces CV mode and
deasserts both enable lines; mode 1 enters expression-pedal mode and
replays the remembered signal side via `set_exp_pedal_mode`. -/
def set_cv_exp_pedal_mode (s : DriverState) (mode : Int) :
    DriverState × List PinWrite :=
  if mode = 0 then
    ({ s with cv_exp_pedal_mode := false },
     if s.initialized then
       [⟨Pin.exp_enable1, 0⟩, ⟨Pin.exp_enable2, 0⟩]
     else [])
  else if mode = 1 then
    set_exp_pedal_mode { s with cv_exp_pedal_mode := true }
      (if s.exp_pedal_mode then 1 else 0)
  else (s, [])

/-- Embedding of `exp_flag_irq_handler` from cs4265.c: the rising-edge handler on
either sense line calls `set_cv_exp_pedal_mode(0)`. -/
def exp_flag_irq_handler (s : DriverState) : DriverState × List PinWrite :=
  set_cv_exp_pedal_mode s 0

/-- Getter `headphone_get`: the ALSA getter reads the `headphone_volume`
mirror. -/
def headphone_get (s : DriverState) : Int :=
  s.headphone_volume

/-- Callback `headphone_put`: calls `set_headphone_volume` only when the value
changed; returns `(state, writes, changed)`. -/
def headphone_put (s : DriverState) (v : Int) :
    DriverState × List PinWrite × Int :=
  if s.headphone_volume ≠ v then
    let r := set_headphone_volume s v
    (r.1, r.2, 1)
  else (s, [], 0)

/-- Getter `input_left_gain_stage_get`. -/
def input_left_gain_stage_get (s : DriverState) : Int :=
  s.input_left_gain_stage

/-- Getter `input_right_gain_stage_get`. -/
def input_right_gain_stage_get (s : DriverState) : Int :=
  s.input_right_gain_stage

/-- Getter `left_true_bypass_get`. -/
def left_true_bypass_get (s : DriverState) : Bool :=
  s.left_true_bypass

/-- Getter `right_true_bypass_get`. -/
def right_true_bypass_get (s : DriverState) : Bool :=
  s.right_true_bypass

/-- Getter `headphone_cv_mode_get`. -/
def headphone_cv_mode_get (s : DriverState) : Bool :=
  s.headphone_cv_mode

/-- Getter `cv_exp_pedal_mode_get`. -/
def cv_exp_pedal_mode_get (s : DriverState) : Bool :=
  s.cv_exp_pedal_mode

/-- Getter `exp_pedal_mode_get`. -/
def exp_pedal_mode_get (s : DriverState) : Bool :=
  s.exp_pedal_mode

/-- The declared integer range of the gain-stage ALSA controls, from
`input_gain_stage_info` (`min = 0`, `max = 3`). -/
structure CtlIntRange where
  min : Int
  max : Int
deriving DecidableEq, Repr

/-- Callback `input_gain_stage_info` declares the control range `[0, 3]`. -/
def input_gain_stage_info : CtlIntRange := ⟨0, 3⟩

/-! ### Helper lemmas -/

/-- A scan over entries none of which matches returns `-EINVAL`,
whatever the running index. -/
theorem get_clk_index_loop_not_found (mclk rate : Nat) :
    ∀ (l : List cs4245_clk_para) (i : Nat),
      (∀ e ∈ l, ¬(e.rate = rate ∧ e.mclk = mclk)) →
      get_clk_index_loop mclk rate i l = -EINVAL := by
  intro l
  induction l with
  | nil => intro i _; rfl
  | cons e rest ih =>
    intro i h
    have he := h e (List.mem_cons_self e rest)
    simp only [get_clk_index_loop, if_neg he]
    exact ih (i + 1) (fun x hx => h x (List.mem_cons_of_mem e hx))

/-- No row of the clock table has a zero master clock. -/
theorem clk_map_table_mclk_pos : ∀ e ∈ clk_map_table, e.mclk ≠ 0 := by
  decide

/-! ### C1 -/

/-- C1: for every `(mclk, rate)` pair present in the static clock table,
`cs4245_get_clk_index` returns the index of that (unique, hence first
matching) row and the hw_params resolution step reads exactly the
tabulated `(fm_mode, mclkdiv)`; for every pair matching no row, the
lookup returns `-EINVAL` and resolution fails, with no entry
synthesized. -/
theorem c1_clk_lookup_exact :
    (∀ i : Fin clk_map_table.length,
        cs4245_get_clk_index (clk_map_table.get i).mclk (clk_map_table.get i).rate
          = Int.ofNat i.val
        ∧ cs4245_resolve (clk_map_table.get i).mclk (clk_map_table.get i).rate
          = some ((clk_map_table.get i).fm_mode, (clk_map_table.get i).mclkdiv))
    ∧ ∀ mclk rate : Nat,
        (∀ e ∈ clk_map_table, ¬(e.rate = rate ∧ e.mclk = mclk)) →
        cs4245_get_clk_index mclk rate = -EINVAL
        ∧ cs4245_resolve mclk rate = none := by
  constructor
  · decide
  · intro mclk rate habs
    have hidx : cs4245_get_clk_index mclk rate = -EINVAL :=
      get_clk_index_loop_not_found mclk rate clk_map_table 0 habs
    refine ⟨hidx, ?_⟩
    simp only [cs4245_resolve, hidx]
    decide

/-- Witness for C1: the pair `(1, 1)` appears in no table row, and the
lookup rejects it. -/
theorem c1_witness :
    cs4245_get_clk_index 1 1 = -EINVAL ∧ cs4245_resolve 1 1 = none :=
  c1_clk_lookup_exact.2 1 1 (by decide)

/-! ### C2 -/

/-- C2: with the valid clock id 0, `cs4245_set_sysclk` on a nonzero
`freq` succeeds exactly when `freq` is the master clock of some table
row, storing `freq`; on a `freq` matching no row it fails with
`-EINVAL` and clears the stored clock to 0, after which every exact
lookup against the stored clock fails; `freq = 0` is a successful
no-op. -/
theorem c2_set_sysclk_spec :
    ∀ (sysclk freq : Nat),
      (freq = 0 → cs4245_set_sysclk sysclk 0 freq = (0, sysclk)) ∧
      (freq ≠ 0 →
        ((∃ e ∈ clk_map_table, e.mclk = freq) →
            cs4245_set_sysclk sysclk 0 freq = (0, freq)) ∧
        ((∀ e ∈ clk_map_table, e.mclk ≠ freq) →
            cs4245_set_sysclk sysclk 0 freq = (-EINVAL, 0) ∧
            ∀ rate : Nat, cs4245_get_clk_index 0 rate = -EINVAL)) := by
  intro sysclk freq
  constructor
  · intro h0
    simp [cs4245_set_sysclk, h0]
  · intro hne
    constructor
    · rintro ⟨e, he, hm⟩
      have hany : clk_map_table.any (fun e => e.mclk == freq) = true :=
        List.any_eq_true.mpr ⟨e, he, by simpa using hm⟩
      simp [cs4245_set_sysclk, hne, hany]
    · intro habs
      have hany : clk_map_table.any (fun e => e.mclk == freq) = false := by
        simp only [List.any_eq_false, beq_iff_eq]
        exact habs
      refine ⟨by simp [cs4245_set_sysclk, hne, hany], ?_⟩
      intro rate
      apply get_clk_index_loop_not_found
      intro e he hc
      exact clk_map_table_mclk_pos e he hc.2

/-- Witness for C2: 8192000 Hz is tabulated and gets stored; 7 Hz is
not and clears the stored clock; 0 Hz is ignored. -/
theorem c2_witness :
    cs4245_set_sysclk 5 0 8192000 = (0, 8192000) ∧
    cs4245_set_sysclk 8192000 0 7 = (-EINVAL, 0) ∧
    cs4245_set_sysclk 5 0 0 = (0, 5) :=
  ⟨((c2_set_sysclk_spec 5 8192000).2 (by decide)).1
      ⟨⟨8192000, 32000, 0, 0⟩, by decide, rfl⟩,
   ((((c2_set_sysclk_spec 8192000 7).2 (by decide)).2) (by decide)).1,
   (c2_set_sysclk_spec 5 0).1 rfl⟩

/-! ### Pulse-train lemmas -/

/-- Number of rising clock edges in a write trace. -/
def clkRises (l : List PinWrite) : Nat :=
  l.countP (fun w => w.pin == Pin.headphone_clk && w.value == 1)

/-- A train of `n` pulses contains exactly `n` rising clock edges. -/
theorem clkRises_pulses (n : Nat) : clkRises (pulses n) = n := by
  induction n with
  | zero => rfl
  | succ k ih =>
    simp only [pulses, clkRises, List.countP_cons] at ih ⊢
    simp [ih, clkRises]

/-- A pulse train never touches the direction pin. -/
theorem pulses_no_dir (n : Nat) :
    ∀ w ∈ pulses n, w.pin ≠ Pin.headphone_dir := by
  induction n with
  | zero => intro w hw; cases hw
  | succ k ih =>
    intro w hw
    simp only [pulses, List.mem_cons] at hw
    rcases hw with h | h | h
    · subst h; decide
    · subst h; decide
    · exact ih w h

/-- Concrete initialized state used by witnesses: volume 7, pins
initialized, IRQs registered. -/
def s_init : DriverState :=
  ⟨7, 0, 0, true, true, false, false, false, 64, 65, true⟩

/-! ### C3 -/

/-- C3: with pins initialized and current and target volume in
`[0, 15]`, `set_headphone_volume` first writes the direction pin once —
1 when the target is above the current volume, 0 otherwise — then
emits the pulse train of exactly `|target - current|` pulses (each a
clock write to 1 followed by a clock write to 0, in sequence), the
train containing exactly that many rising clock edges and no direction
write, and the recorded volume afterwards equals the target. -/
theorem c3_set_headphone_volume_spec :
    ∀ (s : DriverState) (target : Int),
      s.initialized = true →
      0 ≤ s.headphone_volume → s.headphone_volume ≤ 15 →
      0 ≤ target → target ≤ 15 →
      (set_headphone_volume s target).2
        = ⟨Pin.headphone_dir, if s.headphone_volume < target then 1 else 0⟩
            :: pulses (target - s.headphone_volume).natAbs
      ∧ clkRises (pulses (target - s.headphone_volume).natAbs)
          = (target - s.headphone_volume).natAbs
      ∧ (∀ w ∈ pulses (target - s.headphone_volume).natAbs,
            w.pin ≠ Pin.headphone_dir)
      ∧ (set_headphone_volume s target).1.headphone_volume = target := by
  intro s target hinit _ _ _ _
  refine ⟨?_, clkRises_pulses _, pulses_no_dir _, ?_⟩
  · simp [set_headphone_volume, hinit]
  · simp [set_headphone_volume]

/-- Witness for C3: from volume 7, setting 11 writes direction 1 and
exactly 4 pulses. -/
theorem c3_witness :
    (set_headphone_volume s_init 11).2
      = ⟨Pin.headphone_dir, if s_init.headphone_volume < 11 then 1 else 0⟩
          :: pulses (11 - s_init.headphone_volume).natAbs
    ∧ clkRises (pulses (11 - s_init.headphone_volume).natAbs)
        = (11 - s_init.headphone_volume).natAbs
    ∧ (∀ w ∈ pulses (11 - s_init.headphone_volume).natAbs,
          w.pin ≠ Pin.headphone_dir)
    ∧ (set_headphone_volume s_init 11).1.headphone_volume = 11 :=
  c3_set_headphone_volume_spec s_init 11 rfl (by decide) (by decide)
    (by decide) (by decide)

/-! ### C4 -/

/-- C4 counterexample: with pins initialized and the current volume
already 7, a call of `set_headphone_volume` with target 7 issues zero
clock pulses but does write the direction pin (once, with value 0), so
the direction pin is not left untouched. -/
theorem c4_counterexample :
    s_init.headphone_volume = 7 ∧ s_init.initialized = true ∧
    (set_headphone_volume s_init 7).2 = [⟨Pin.headphone_dir, 0⟩] ∧
    (set_headphone_volume s_init 7).2 ≠ [] := by
  decide

/-- C4 as amended: when the target equals the current volume, a direct
`set_headphone_volume` call issues zero clock pulses but still writes
the direction pin exactly once (with the down level 0) and leaves the
state unchanged; the control-surface callback `headphone_put` skips
the setter entirely on an unchanged value, performing no pin write at
all and reporting no change. -/
theorem c4_no_change_spec :
    ∀ s : DriverState, s.initialized = true →
      headphone_put s s.headphone_volume = (s, [], 0) ∧
      (set_headphone_volume s s.headphone_volume).2
        = [⟨Pin.headphone_dir, 0⟩] ∧
      clkRises (set_headphone_volume s s.headphone_volume).2 = 0 ∧
      (set_headphone_volume s s.headphone_volume).1 = s := by
  intro s hinit
  refine ⟨by simp [headphone_put], ?_, ?_, ?_⟩
  · simp [set_headphone_volume, hinit, pulses]
  · simp [set_headphone_volume, hinit, pulses, clkRises]
  · simp [set_headphone_volume]

/-- Witness for C4 (amended): at the concrete initialized state with
volume 7. -/
theorem c4_witness :
    headphone_put s_init s_init.headphone_volume = (s_init, [], 0) ∧
    (set_headphone_volume s_init s_init.headphone_volume).2
      = [⟨Pin.headphone_dir, 0⟩] ∧
    clkRises (set_headphone_volume s_init s_init.headphone_volume).2 = 0 ∧
    (set_headphone_volume s_init s_init.headphone_volume).1 = s_init :=
  c4_no_change_spec s_init rfl

/-! ### C5 -/

/-- Concrete state in expression-pedal mode with the ring side
remembered, pins initialized and IRQs registered. -/
def s_exp : DriverState :=
  ⟨0, 0, 0, true, true, false, true, true, 64, 65, true⟩

/-- C5: whenever the sense-line interrupt handler fires (the handler
can only be installed after the pin set is initialized), the system
transitions to CV mode from any prior state: `cv_exp_pedal_mode`
becomes false and both `exp_enable` drive lines are driven to 0, in
that order, with no other state change. -/
theorem c5_irq_forces_cv_mode :
    ∀ s : DriverState, s.initialized = true →
      exp_flag_irq_handler s
        = ({ s with cv_exp_pedal_mode := false },
           [⟨Pin.exp_enable1, 0⟩, ⟨Pin.exp_enable2, 0⟩])
      ∧ (exp_flag_irq_handler s).1.cv_exp_pedal_mode = false := by
  intro s hinit
  constructor
  · simp [exp_flag_irq_handler, set_cv_exp_pedal_mode, hinit]
  · simp [exp_flag_irq_handler, set_cv_exp_pedal_mode]

/-- Witness for C5: fired while in expression-pedal mode (ring side
selected), the handler lands in CV mode with both lines low. -/
theorem c5_witness :
    exp_flag_irq_handler s_exp
      = ({ s_exp with cv_exp_pedal_mode := false },
         [⟨Pin.exp_enable1, 0⟩, ⟨Pin.exp_enable2, 0⟩])
    ∧ (exp_flag_irq_handler s_exp).1.cv_exp_pedal_mode = false :=
  c5_irq_forces_cv_mode s_exp rfl

/-! ### C6 -/

/-- C6: with `initialized = false`, every setter still updates its
in-memory logical mirror — the corresponding getter returns the newly
set value — while issuing zero pin writes. -/
theorem c6_uninitialized_logical_only :
    ∀ s : DriverState, s.initialized = false →
      (∀ v : Int,
          headphone_get (set_headphone_volume s v).1 = v
          ∧ (set_headphone_volume s v).2 = []) ∧
      (∀ lvl : Int,
          input_left_gain_stage_get (set_gain_stage s CHANNEL_LEFT lvl).1 = lvl
          ∧ (set_gain_stage s CHANNEL_LEFT lvl).2 = []) ∧
      (∀ lvl : Int,
          input_right_gain_stage_get (set_gain_stage s CHANNEL_RIGHT lvl).1 = lvl
          ∧ (set_gain_stage s CHANNEL_RIGHT lvl).2 = []) ∧
      (∀ b : Bool,
          left_true_bypass_get (set_true_bypass s CHANNEL_LEFT b).1 = b
          ∧ (set_true_bypass s CHANNEL_LEFT b).2 = []) ∧
      (∀ b : Bool,
          right_true_bypass_get (set_true_bypass s CHANNEL_RIGHT b).1 = b
          ∧ (set_true_bypass s CHANNEL_RIGHT b).2 = []) ∧
      (∀ m : Int, m = 0 ∨ m = 1 →
          headphone_cv_mode_get (set_headphone_cv_mode s m).1 = (m != 0)
          ∧ (set_headphone_cv_mode s m).2 = []) ∧
      (∀ m : Int, m = 0 ∨ m = 1 →
          exp_pedal_mode_get (set_exp_pedal_mode s m).1 = (m != 0)
          ∧ (set_exp_pedal_mode s m).2 = []) ∧
      (∀ m : Int, m = 0 ∨ m = 1 →
          cv_exp_pedal_mode_get (set_cv_exp_pedal_mode s m).1 = (m != 0)
          ∧ (set_cv_exp_pedal_mode s m).2 = []) := by
  intro s hinit
  refine ⟨?_, ?_, ?_, ?_, ?_, ?_, ?_, ?_⟩
  · intro v
    exact ⟨by simp [set_headphone_volume, headphone_get],
           by simp [set_headphone_volume, hinit]⟩
  · intro lvl
    constructor
    · simp [set_gain_stage, CHANNEL_LEFT, CHANNEL_RIGHT, hinit,
        input_left_gain_stage_get]
    · simp [set_gain_stage, CHANNEL_LEFT, CHANNEL_RIGHT, hinit]
  · intro lvl
    constructor
    · simp [set_gain_stage, CHANNEL_LEFT, CHANNEL_RIGHT, hinit,
        input_right_gain_stage_get]
    · simp [set_gain_stage, CHANNEL_LEFT, CHANNEL_RIGHT, hinit]
  · intro b
    constructor
    · simp [set_true_bypass, CHANNEL_LEFT, CHANNEL_RIGHT, hinit,
        left_true_bypass_get]
    · simp [set_true_bypass, CHANNEL_LEFT, CHANNEL_RIGHT, hinit]
  · intro b
    constructor
    · simp [set_true_bypass, CHANNEL_LEFT, CHANNEL_RIGHT, hinit,
        right_true_bypass_get]
    · simp [set_true_bypass, CHANNEL_LEFT, CHANNEL_RIGHT, hinit]
  · rintro m (rfl | rfl) <;>
      simp [set_headphone_cv_mode, hinit, headphone_cv_mode_get]
  · rintro m (rfl | rfl) <;>
      simp [set_exp_pedal_mode, hinit, exp_pedal_mode_get]
  · rintro m (rfl | rfl)
    · simp [set_cv_exp_pedal_mode, hinit, cv_exp_pedal_mode_get]
    · constructor
      · simp [set_cv_exp_pedal_mode, set_exp_pedal_mode, hinit,
          cv_exp_pedal_mode_get]
      · simp [set_cv_exp_pedal_mode, set_exp_pedal_mode, hinit]

/-- Concrete uninitialized state used by the C6 witness. -/
def s_uninit : DriverState :=
  ⟨3, 1, 2, false, true, false, false, false, 0, 0, false⟩

/-- Witness for C6: a sample of every setter on an uninitialized state,
at concrete arguments. -/
theorem c6_witness :
    (headphone_get (set_headphone_volume s_uninit 9).1 = 9
      ∧ (set_headphone_volume s_uninit 9).2 = []) ∧
    (input_left_gain_stage_get (set_gain_stage s_uninit CHANNEL_LEFT 2).1 = 2
      ∧ (set_gain_stage s_uninit CHANNEL_LEFT 2).2 = []) ∧
    (input_right_gain_stage_get (set_gain_stage s_uninit CHANNEL_RIGHT 3).1 = 3
      ∧ (set_gain_stage s_uninit CHANNEL_RIGHT 3).2 = []) ∧
    (left_true_bypass_get (set_true_bypass s_uninit CHANNEL_LEFT false).1 = false
      ∧ (set_true_bypass s_uninit CHANNEL_LEFT false).2 = []) ∧
    (right_true_bypass_get (set_true_bypass s_uninit CHANNEL_RIGHT false).1 = false
      ∧ (set_true_bypass s_uninit CHANNEL_RIGHT false).2 = []) ∧
    (headphone_cv_mode_get (set_headphone_cv_mode s_uninit 1).1 = ((1 : Int) != 0)
      ∧ (set_headphone_cv_mode s_uninit 1).2 = []) ∧
    (exp_pedal_mode_get (set_exp_pedal_mode s_uninit 1).1 = ((1 : Int) != 0)
      ∧ (set_exp_pedal_mode s_uninit 1).2 = []) ∧
    (cv_exp_pedal_mode_get (set_cv_exp_pedal_mode s_uninit 1).1 = ((1 : Int) != 0)
      ∧ (set_cv_exp_pedal_mode s_uninit 1).2 = []) := by
  have h := c6_uninitialized_logical_only s_uninit rfl
  exact ⟨h.1 9, h.2.1 2, h.2.2.1 3, h.2.2.2.1 false, h.2.2.2.2.1 false,
    h.2.2.2.2.2.1 1 (Or.inr rfl), h.2.2.2.2.2.2.1 1 (Or.inr rfl),
    h.2.2.2.2.2.2.2 1 (Or.inr rfl)⟩

/-! ### Gain-stage lemmas -/

/-- The write trace of `set_gain_stage` depends only on the
`initialized` flag, the channel and the level — never on the mirrors or
any other prior state. -/
theorem set_gain_stage_snd (s : DriverState) (c lvl : Int) :
    (set_gain_stage s c lvl).2 =
      if s.initialized = false then []
      else if c = CHANNEL_LEFT then
        gain_stage_writes Pin.gain_stage_left1 Pin.gain_stage_left2 lvl
      else if c = CHANNEL_RIGHT then
        gain_stage_writes Pin.gain_stage_right1 Pin.gain_stage_right2 lvl
      else [] := by
  by_cases hL : c = CHANNEL_LEFT
  · by_cases hI : s.initialized = false <;> simp [set_gain_stage, hL, hI]
  · by_cases hR : c = CHANNEL_RIGHT
    · by_cases hI : s.initialized = false <;>
        simp [set_gain_stage, hL, hR, hI, CHANNEL_LEFT, CHANNEL_RIGHT]
    · simp [set_gain_stage, hL, hR]

/-- Lemma: `set_gain_stage` never changes the `initialized` flag. -/
theorem set_gain_stage_keeps_initialized (s : DriverState) (c lvl : Int) :
    (set_gain_stage s c lvl).1.initialized = s.initialized := by
  by_cases hL : c = CHANNEL_LEFT
  · by_cases hI : s.initialized = false <;> simp [set_gain_stage, hL, hI]
  · by_cases hR : c = CHANNEL_RIGHT
    · by_cases hI : s.initialized = false <;>
        simp [set_gain_stage, hL, hR, hI, CHANNEL_LEFT, CHANNEL_RIGHT]
    · simp [set_gain_stage, hL, hR]

/-! ### C7 -/

/-- C7: with pins initialized, `set_gain_stage` drives the channel's
pin pair to the fixed pattern 0 → (1,1), 1 → (1,0), 2 → (0,1),
3 → (0,0), for any prior state; and repeating any call performs
exactly the same pin writes the second time. -/
theorem c7_gain_stage_pattern :
    ∀ s : DriverState, s.initialized = true →
      ((set_gain_stage s CHANNEL_LEFT 0).2
        = [⟨Pin.gain_stage_left1, 1⟩, ⟨Pin.gain_stage_left2, 1⟩]) ∧
      ((set_gain_stage s CHANNEL_LEFT 1).2
        = [⟨Pin.gain_stage_left1, 1⟩, ⟨Pin.gain_stage_left2, 0⟩]) ∧
      ((set_gain_stage s CHANNEL_LEFT 2).2
        = [⟨Pin.gain_stage_left1, 0⟩, ⟨Pin.gain_stage_left2, 1⟩]) ∧
      ((set_gain_stage s CHANNEL_LEFT 3).2
        = [⟨Pin.gain_stage_left1, 0⟩, ⟨Pin.gain_stage_left2, 0⟩]) ∧
      ((set_gain_stage s CHANNEL_RIGHT 0).2
        = [⟨Pin.gain_stage_right1, 1⟩, ⟨Pin.gain_stage_right2, 1⟩]) ∧
      ((set_gain_stage s CHANNEL_RIGHT 1).2
        = [⟨Pin.gain_stage_right1, 1⟩, ⟨Pin.gain_stage_right2, 0⟩]) ∧
      ((set_gain_stage s CHANNEL_RIGHT 2).2
        = [⟨Pin.gain_stage_right1, 0⟩, ⟨Pin.gain_stage_right2, 1⟩]) ∧
      ((set_gain_stage s CHANNEL_RIGHT 3).2
        = [⟨Pin.gain_stage_right1, 0⟩, ⟨Pin.gain_stage_right2, 0⟩]) ∧
      (∀ channel lvl : Int,
        (set_gain_stage (set_gain_stage s channel lvl).1 channel lvl).2
          = (set_gain_stage s channel lvl).2) := by
  intro s hinit
  refine ⟨?_, ?_, ?_, ?_, ?_, ?_, ?_, ?_, ?_⟩
  · simp [set_gain_stage, gain_stage_writes, hinit, CHANNEL_LEFT]
  · simp [set_gain_stage, gain_stage_writes, hinit, CHANNEL_LEFT]
  · simp [set_gain_stage, gain_stage_writes, hinit, CHANNEL_LEFT]
  · simp [set_gain_stage, gain_stage_writes, hinit, CHANNEL_LEFT]
  · simp [set_gain_stage, gain_stage_writes, hinit, CHANNEL_LEFT, CHANNEL_RIGHT]
  · simp [set_gain_stage, gain_stage_writes, hinit, CHANNEL_LEFT, CHANNEL_RIGHT]
  · simp [set_gain_stage, gain_stage_writes, hinit, CHANNEL_LEFT, CHANNEL_RIGHT]
  · simp [set_gain_stage, gain_stage_writes, hinit, CHANNEL_LEFT, CHANNEL_RIGHT]
  · intro channel lvl
    rw [set_gain_stage_snd, set_gain_stage_snd,
      set_gain_stage_keeps_initialized]

/-- Witness for C7: at the concrete initialized state, `(LEFT, 2)`
yields `(0, 1)` and repeating `(LEFT, 2)` repeats the same writes. -/
theorem c7_witness :
    ((set_gain_stage s_init CHANNEL_LEFT 2).2
      = [⟨Pin.gain_stage_left1, 0⟩, ⟨Pin.gain_stage_left2, 1⟩]) ∧
    ((set_gain_stage (set_gain_stage s_init CHANNEL_LEFT 2).1 CHANNEL_LEFT 2).2
      = (set_gain_stage s_init CHANNEL_LEFT 2).2) := by
  have h := c7_gain_stage_pattern s_init rfl
  exact ⟨h.2.2.1, h.2.2.2.2.2.2.2.2 CHANNEL_LEFT 2⟩

/-! ### C8 -/

/-- C8: with pins initialized, `set_true_bypass` drives the channel's
bypass pin to `GPIO_BYPASS` (logical 0) when engaging bypass and to
`GPIO_PROCESS` (logical 1) when not — the inverted mapping — while the
mirror records the boolean exactly as given. -/
theorem c8_true_bypass_inversion :
    ∀ (s : DriverState) (b : Bool), s.initialized = true →
      (set_true_bypass s CHANNEL_LEFT b
        = ({ s with left_true_bypass := b },
           [⟨Pin.true_bypass_left, if b then GPIO_BYPASS else GPIO_PROCESS⟩])) ∧
      (set_true_bypass s CHANNEL_RIGHT b
        = ({ s with right_true_bypass := b },
           [⟨Pin.true_bypass_right, if b then GPIO_BYPASS else GPIO_PROCESS⟩])) ∧
      left_true_bypass_get (set_true_bypass s CHANNEL_LEFT b).1 = b ∧
      right_true_bypass_get (set_true_bypass s CHANNEL_RIGHT b).1 = b ∧
      GPIO_BYPASS = 0 ∧ GPIO_PROCESS = 1 := by
  intro s b hinit
  refine ⟨?_, ?_, ?_, ?_, rfl, rfl⟩
  · simp [set_true_bypass, CHANNEL_LEFT, hinit]
  · simp [set_true_bypass, CHANNEL_LEFT, CHANNEL_RIGHT, hinit]
  · simp [set_true_bypass, CHANNEL_LEFT, left_true_bypass_get]
  · simp [set_true_bypass, CHANNEL_LEFT, CHANNEL_RIGHT, right_true_bypass_get]

/-- Witness for C8: engaging bypass at the concrete initialized state
drives level 0 on both channels' pins. -/
theorem c8_witness :
    (set_true_bypass s_init CHANNEL_LEFT true
      = ({ s_init with left_true_bypass := true },
         [⟨Pin.true_bypass_left, if true then GPIO_BYPASS else GPIO_PROCESS⟩])) ∧
    (set_true_bypass s_init CHANNEL_RIGHT true
      = ({ s_init with right_true_bypass := true },
         [⟨Pin.true_bypass_right, if true then GPIO_BYPASS else GPIO_PROCESS⟩])) ∧
    left_true_bypass_get (set_true_bypass s_init CHANNEL_LEFT true).1 = true ∧
    right_true_bypass_get (set_true_bypass s_init CHANNEL_RIGHT true).1 = true ∧
    GPIO_BYPASS = 0 ∧ GPIO_PROCESS = 1 :=
  c8_true_bypass_inversion s_init true rfl

/-! ### C9 -/

/-- Concrete state in expression-pedal mode with initialized pins but
failed sense-line IRQ registration (`irqFlag1 = irqFlag2 = 0`), as
`moddevices_init` leaves them when `request_irq` fails. -/
def s_irqfail : DriverState :=
  ⟨0, 0, 0, true, true, false, true, false, 0, 0, true⟩

/-- C9 counterexample: in expression-pedal mode with initialized pins
but failed interrupt registration, `set_exp_pedal_mode` asserts
neither drive line — no pin write at all — contradicting the claim
that while in `ExpPedalMode` exactly one of the two drive lines is
asserted. -/
theorem c9_counterexample :
    s_irqfail.cv_exp_pedal_mode = true ∧
    s_irqfail.initialized = true ∧
    (set_exp_pedal_mode s_irqfail 0).2 = [] ∧
    (set_exp_pedal_mode s_irqfail 1).2 = [] := by
  decide

/-- C9 as amended: `set_exp_pedal_mode` takes pin effect only while in
expression-pedal mode with the pins initialized and both sense-line
IRQs successfully registered, in which case exactly one drive line is
asserted — `exp_enable2` for tip (mode 0), `exp_enable1` for ring
(mode 1) — and the other deasserted; in CV mode, or with uninitialized
pins or failed IRQ registration, it performs no pin write; in every
case the remembered sub-state ends equal to the requested side. -/
theorem c9_signal_side_spec :
    ∀ (s : DriverState) (mode : Int), mode = 0 ∨ mode = 1 →
      ((set_exp_pedal_mode s mode).1
          = { s with exp_pedal_mode := mode != 0 }) ∧
      (exp_pedal_mode_get (set_exp_pedal_mode s mode).1 = (mode != 0)) ∧
      (s.cv_exp_pedal_mode = false → (set_exp_pedal_mode s mode).2 = []) ∧
      (s.cv_exp_pedal_mode = true → s.initialized = true →
       0 < s.irqFlag1 → 0 < s.irqFlag2 →
          (set_exp_pedal_mode s mode).2
            = if mode = 0 then [⟨Pin.exp_enable1, 0⟩, ⟨Pin.exp_enable2, 1⟩]
              else [⟨Pin.exp_enable2, 0⟩, ⟨Pin.exp_enable1, 1⟩]) ∧
      (s.cv_exp_pedal_mode = true →
       (s.initialized = false ∨ s.irqFlag1 ≤ 0 ∨ s.irqFlag2 ≤ 0) →
          (set_exp_pedal_mode s mode).2 = []) := by
  intro s mode hm
  have hmode : mode = 0 ∨ mode = 1 := hm
  refine ⟨?_, ?_, ?_, ?_, ?_⟩
  · rcases hmode with rfl | rfl <;> simp [set_exp_pedal_mode]
  · rcases hmode with rfl | rfl <;>
      simp [set_exp_pedal_mode, exp_pedal_mode_get]
  · intro hcv
    rcases hmode with rfl | rfl <;> simp [set_exp_pedal_mode, hcv]
  · intro hcv hinit h1 h2
    have h1' : ¬s.irqFlag1 ≤ 0 := not_le.mpr h1
    have h2' : ¬s.irqFlag2 ≤ 0 := not_le.mpr h2
    rcases hmode with rfl | rfl <;>
      simp [set_exp_pedal_mode, hcv, hinit, h1', h2']
  · intro hcv hfail
    rcases hfail with hf | hf | hf <;> rcases hmode with rfl | rfl <;>
      simp [set_exp_pedal_mode, hcv, hf]

/-- Witness for C9 (amended): requesting the tip side while in
expression-pedal mode with working IRQs asserts `exp_enable2` and
deasserts `exp_enable1`, and records the tip side. -/
theorem c9_witness :
    ((set_exp_pedal_mode s_exp 0).1
        = { s_exp with exp_pedal_mode := (0 : Int) != 0 }) ∧
    (exp_pedal_mode_get (set_exp_pedal_mode s_exp 0).1 = ((0 : Int) != 0)) ∧
    (set_exp_pedal_mode s_exp 0).2
      = if (0 : Int) = 0 then [⟨Pin.exp_enable1, 0⟩, ⟨Pin.exp_enable2, 1⟩]
        else [⟨Pin.exp_enable2, 0⟩, ⟨Pin.exp_enable1, 1⟩] := by
  have h := c9_signal_side_spec s_exp 0 (Or.inl rfl)
  exact ⟨h.1, h.2.1, h.2.2.2.1 rfl rfl (by decide) (by decide)⟩

/-! ### C10 -/

/-- C10: a `set_gain_stage` call with a valid channel but a level
outside the declared `[0, 3]` control range still stores the
out-of-range level in the channel's mirror — so the getter reports a
value outside the declared range — while driving no pin (the encoding
switch has no case for it), whether or not the pins are initialized. -/
theorem c10_gain_stage_out_of_range :
    ∀ (s : DriverState) (lvl : Int),
      lvl < input_gain_stage_info.min ∨ input_gain_stage_info.max < lvl →
      (set_gain_stage s CHANNEL_LEFT lvl
          = ({ s with input_left_gain_stage := lvl }, [])) ∧
      (set_gain_stage s CHANNEL_RIGHT lvl
          = ({ s with input_right_gain_stage := lvl }, [])) ∧
      input_left_gain_stage_get (set_gain_stage s CHANNEL_LEFT lvl).1 = lvl ∧
      input_right_gain_stage_get (set_gain_stage s CHANNEL_RIGHT lvl).1 = lvl := by
  intro s lvl hout
  simp only [input_gain_stage_info] at hout
  have h0 : lvl ≠ 0 := by omega
  have h1 : lvl ≠ 1 := by omega
  have h2 : lvl ≠ 2 := by omega
  have h3 : lvl ≠ 3 := by omega
  have hw : ∀ g1 g2 : Pin, gain_stage_writes g1 g2 lvl = [] := by
    intro g1 g2
    simp [gain_stage_writes, h0, h1, h2, h3]
  refine ⟨?_, ?_, ?_, ?_⟩
  · by_cases hI : s.initialized = false <;>
      simp [set_gain_stage, CHANNEL_LEFT, hI, hw]
  · by_cases hI : s.initialized = false <;>
      simp [set_gain_stage, CHANNEL_LEFT, CHANNEL_RIGHT, hI, hw]
  · by_cases hI : s.initialized = false <;>
      simp [set_gain_stage, CHANNEL_LEFT, hI, input_left_gain_stage_get]
  · by_cases hI : s.initialized = false <;>
      simp [set_gain_stage, CHANNEL_LEFT, CHANNEL_RIGHT, hI,
        input_right_gain_stage_get]

/-- Witness for C10: level 7 on the left channel of the concrete
initialized state is mirrored (and reported by the getter) while no
pin is driven. -/
theorem c10_witness :
    (set_gain_stage s_init CHANNEL_LEFT 7
        = ({ s_init with input_left_gain_stage := 7 }, [])) ∧
    (set_gain_stage s_init CHANNEL_RIGHT 7
        = ({ s_init with input_right_gain_stage := 7 }, [])) ∧
    input_left_gain_stage_get (set_gain_stage s_init CHANNEL_LEFT 7).1 = 7 ∧
    input_right_gain_stage_get (set_gain_stage s_init CHANNEL_RIGHT 7).1 = 7 :=
  c10_gain_stage_out_of_range s_init 7 (by decide)

end Cs4245
